import Mathlib

/-!
Shallow embedding of the attendance/session time-tracking logic of the
grofast team-management web application, centred on
`src/components/attendance/AttendanceTracker.tsx` and the
`attendance_sessions` table of the SQL migration.

Timestamps are modelled as milliseconds since the epoch (`Int`, matching
JavaScript `Date.getTime()` / `Date.now()`). JavaScript `Math.floor(a / b)`
on integers is `Int.fdiv`, and the JavaScript remainder operator `%`
(truncated, sign of the dividend) is `Int.tmod`. Nullable columns are
`Option`. The session list plays the role of the `attendance_sessions`
rows for one user and one calendar day, in the order the component
receives them from its query (ascending `check_in_time`).
-/

namespace Grofast

/-- A row of `attendance_sessions` restricted to one user and one day
(the `user_id` and `date` columns are fixed by the query and omitted).
Mirrors the `AttendanceSession` interface plus `check_out_photo`. -/
structure AttendanceSession where
  id : Nat
  check_in_time : Int
  check_out_time : Option Int
  duration_minutes : Option Int
  check_in_photo : Option String
  check_out_photo : Option String
  deriving DecidableEq, Repr

/-- JavaScript truthiness of a nullable number: `null`, `0` (and `NaN`,
not representable here) are falsy, every other number is truthy. Used
where the component writes `if (session.duration_minutes)`. -/
def jsTruthyNum : Option Int → Bool
  | none => false
  | some d => d != 0

/-- Model of `sessions.find(s => !s.check_out_time)` — the first session of the
list with no check-out time (line 50 of AttendanceTracker.tsx). -/
def activeSession (sessions : List AttendanceSession) : Option AttendanceSession :=
  sessions.find? (fun s => s.check_out_time.isNone)

/-- Model of `Math.floor((now - checkInTime) / (1000 * 60))` — the duration in
whole minutes written at check-out (line 171). No clamping is applied. -/
def durationMinutes (checkInTime now : Int) : Int :=
  (now - checkInTime).fdiv (1000 * 60)

/-- The row inserted by a check-in (lines 157-162): open session with the
check-in instant and photo; `check_out_time` and `duration_minutes` null. -/
def newSession (newId : Nat) (now : Int) (photo : String) : AttendanceSession :=
  { id := newId
    check_in_time := now
    check_out_time := none
    duration_minutes := none
    check_in_photo := some photo
    check_out_photo := none }

/-- Effect of the check-in insert on the day's session list: the new row
joins the list; with the query ordered by `check_in_time` ascending and the
new row carrying the latest instant, it appears at the end. -/
def checkInInsert (sessions : List AttendanceSession) (newId : Nat) (now : Int)
    (photo : String) : List AttendanceSession :=
  sessions ++ [newSession newId now photo]

/-- The field update the check-out applies to the matched row
(lines 173-180): sets `check_out_time`, `check_out_photo` and
`duration_minutes` computed from the ACTIVE session's check-in instant. -/
def closeSession (a : AttendanceSession) (now : Int) (photo : String) :
    AttendanceSession :=
  { a with
    check_out_time := some now
    check_out_photo := some photo
    duration_minutes := some (durationMinutes a.check_in_time now) }

/-- The `update ... .eq("id", activeSession.id)` write as a row transform:
rows whose `id` equals the active session's receive the update payload,
every other row is untouched. -/
def checkOutUpdate (a : AttendanceSession) (now : Int) (photo : String)
    (s : AttendanceSession) : AttendanceSession :=
  if s.id == a.id then
    { s with
      check_out_time := some now
      check_out_photo := some photo
      duration_minutes := some (durationMinutes a.check_in_time now) }
  else s

/-- Result of one `confirmPhoto` invocation: the session list the caller
is left with, and the error surfaced to the user (the `toast.error`
message), if any. -/
structure OpResult where
  sessions : List AttendanceSession
  error : Option String
  deriving DecidableEq, Repr

/-- The two values of the `captureType` state. -/
inductive CaptureType
  | check_in
  | check_out
  deriving DecidableEq, Repr

/-- Model of `confirmPhoto` (lines 152-194). `writeOk` models whether the single
store write (insert or update) confirms; when it fails the thrown error
is caught, the failure message is toasted, and the session list is left
as it was. A check-out with no active session returns early (line 167)
with no write and no error. -/
def confirmPhoto (sessions : List AttendanceSession) (captureType : CaptureType)
    (newId : Nat) (now : Int) (photo : String) (writeOk : Bool) : OpResult :=
  match captureType with
  | .check_in =>
      if writeOk then
        { sessions := checkInInsert sessions newId now photo, error := none }
      else
        { sessions := sessions, error := some "Failed to save attendance" }
  | .check_out =>
      match activeSession sessions with
      | none => { sessions := sessions, error := none }
      | some a =>
          if writeOk then
            { sessions := sessions.map (checkOutUpdate a now photo), error := none }
          else
            { sessions := sessions, error := some "Failed to save attendance" }

/-- One step of the `totalMinutes` reducer (lines 54-64): a truthy
`duration_minutes` contributes itself; otherwise an open session
contributes its live elapsed whole minutes; otherwise nothing. -/
def tickMinutes (now : Int) (acc : Int) (s : AttendanceSession) : Int :=
  if jsTruthyNum s.duration_minutes then acc + s.duration_minutes.getD 0
  else if s.check_out_time.isNone then acc + (now - s.check_in_time).fdiv (1000 * 60)
  else acc

/-- Model of `totalMinutes` — today's total worked minutes (lines 54-64). -/
def totalMinutes (sessions : List AttendanceSession) (now : Int) : Int :=
  sessions.foldl (tickMinutes now) 0

/-- Model of `totalHours = Math.floor(totalMinutes / 60)` (line 66). -/
def totalHours (sessions : List AttendanceSession) (now : Int) : Int :=
  (totalMinutes sessions now).fdiv 60

/-- Model of `remainingMinutes = totalMinutes % 60` (line 67). -/
def remainingMinutes (sessions : List AttendanceSession) (now : Int) : Int :=
  (totalMinutes sessions now).tmod 60

/-- Model of `padStart(2, "0")` as used on the elapsed-time fields: the rendered
number strings are non-empty, so at most one `"0"` is prepended. -/
def padStart2 (s : String) : String :=
  if s.length < 2 then "0" ++ s else s

/-- The elapsed-time string of the 1-second ticker (lines 76-88):
`HH:MM:SS` from `diff = now - start` via `Math.floor` division and `%`. -/
def elapsedDisplay (checkInTime now : Int) : String :=
  let diff := now - checkInTime
  let hours := diff.fdiv (1000 * 60 * 60)
  let minutes := (diff.tmod (1000 * 60 * 60)).fdiv (1000 * 60)
  let seconds := (diff.tmod (1000 * 60)).fdiv 1000
  padStart2 (toString hours) ++ ":" ++ padStart2 (toString minutes) ++ ":" ++
    padStart2 (toString seconds)

/-- The per-session duration cell of the sessions list (lines 277-287):
a truthy `duration_minutes` renders as `Hh Mm`; otherwise the
`In Progress` badge is shown. -/
def sessionDurationDisplay (s : AttendanceSession) : String :=
  if jsTruthyNum s.duration_minutes then
    toString ((s.duration_minutes.getD 0).fdiv 60) ++ "h " ++
      toString ((s.duration_minutes.getD 0).tmod 60) ++ "m"
  else "In Progress"

/-- Ascending order on `check_in_time`, the `order("check_in_time",
ascending: true)` of the query (line 43). -/
def byCheckIn (a b : AttendanceSession) : Prop :=
  a.check_in_time ≤ b.check_in_time

instance : DecidableRel byCheckIn :=
  fun a b => inferInstanceAs (Decidable (a.check_in_time ≤ b.check_in_time))

instance : IsTotal AttendanceSession byCheckIn :=
  ⟨fun a b => Int.le_total a.check_in_time b.check_in_time⟩

instance : IsTrans AttendanceSession byCheckIn :=
  ⟨fun _ _ _ h h' => Int.le_trans h h'⟩

/-- The day's query (lines 34-47): the stored rows sorted ascending by
`check_in_time`. -/
def sessionsQuery (raw : List AttendanceSession) : List AttendanceSession :=
  List.insertionSort byCheckIn raw

/-- The heading `Session {index + 1}` of the rendered list (line 268),
written from the 0-based position in the list. -/
def sessionLabel (index : Nat) : String :=
  "Session " ++ toString (index + 1)

/-- Labels of `sessions.map((session, index) => ...)` (lines 256-268):
purely positional, nothing read from the record. -/
def renderedLabels (sessions : List AttendanceSession) : List String :=
  sessions.enum.map (fun p => sessionLabel p.1)

/-- Number of open rows (no `check_out_time`) in a session list. -/
def openCount (sessions : List AttendanceSession) : Nat :=
  (sessions.filter (fun s => s.check_out_time.isNone)).length

/-- Spec-side daily total, closed part: sum of `duration_minutes` over the
sessions that have a `check_out_time`. -/
def specClosedMinutes (sessions : List AttendanceSession) : Int :=
  ((sessions.filter fun s => s.check_out_time.isSome).map
    fun s => s.duration_minutes.getD 0).sum

/-- Spec-side daily total, open part: sum of the live elapsed whole
minutes `floor((now - check_in_time) / 60000)` over the open sessions. -/
def specOpenMinutes (sessions : List AttendanceSession) (now : Int) : Int :=
  ((sessions.filter fun s => s.check_out_time.isNone).map
    fun s => (now - s.check_in_time).fdiv (1000 * 60)).sum

/-- Well-formedness of a stored day: a session carries a
`duration_minutes` exactly when it carries a `check_out_time`. Every list
reachable through the component's own check-in/check-out writes
satisfies this. -/
def durationsMatchCheckouts (sessions : List AttendanceSession) : Prop :=
  ∀ s ∈ sessions, s.check_out_time.isSome ↔ s.duration_minutes.isSome

instance (sessions : List AttendanceSession) :
    Decidable (durationsMatchCheckouts sessions) :=
  inferInstanceAs
    (Decidable (∀ s ∈ sessions, s.check_out_time.isSome ↔ s.duration_minutes.isSome))

/-- The reducer step only ever adds to its accumulator. -/
theorem tickMinutes_add (now acc : Int) (s : AttendanceSession) :
    tickMinutes now acc s = acc + tickMinutes now 0 s := by
  unfold tickMinutes
  split_ifs <;> omega

/-- Folding the reducer from any accumulator is the accumulator plus the
fold from zero. -/
theorem foldl_tickMinutes (now : Int) (l : List AttendanceSession) :
    ∀ acc : Int, l.foldl (tickMinutes now) acc = acc + l.foldl (tickMinutes now) 0 := by
  induction l with
  | nil => intro acc; simp
  | cons s rest ih =>
    intro acc
    simp only [List.foldl_cons]
    rw [ih (tickMinutes now acc s), ih (tickMinutes now 0 s), tickMinutes_add]
    omega

/-- The reducer total splits into the closed and open sums on any
well-formed day. -/
theorem totalMinutes_split (now : Int) :
    ∀ sessions : List AttendanceSession, durationsMatchCheckouts sessions →
      totalMinutes sessions now = specClosedMinutes sessions + specOpenMinutes sessions now := by
  intro sessions
  induction sessions with
  | nil => intro _; simp [totalMinutes, specClosedMinutes, specOpenMinutes]
  | cons s rest ih =>
    intro hwf
    have hrest : durationsMatchCheckouts rest :=
      fun x hx => hwf x (List.mem_cons_of_mem s hx)
    have hs := hwf s (List.mem_cons_self s rest)
    have hfold : totalMinutes (s :: rest) now =
        tickMinutes now 0 s + totalMinutes rest now := by
      simp only [totalMinutes, List.foldl_cons]
      rw [foldl_tickMinutes now rest (tickMinutes now 0 s), tickMinutes_add]
    rw [hfold, ih hrest]
    cases hc : s.check_out_time with
    | none =>
      have hd : s.duration_minutes = none := by
        cases hdm : s.duration_minutes with
        | none => rfl
        | some d =>
          exfalso
          have := hs.mpr (by simp [hdm])
          simp [hc] at this
      simp [tickMinutes, jsTruthyNum, hd, hc, specClosedMinutes, specOpenMinutes,
        List.filter_cons]
      omega
    | some t =>
      obtain ⟨d, hd⟩ : ∃ d, s.duration_minutes = some d := by
        cases hdm : s.duration_minutes with
        | none =>
          exfalso
          have := hs.mp (by simp [hc])
          simp [hdm] at this
        | some d => exact ⟨d, rfl⟩
      have htick : tickMinutes now 0 s = d := by
        unfold tickMinutes
        simp only [hd, hc, jsTruthyNum]
        by_cases h0 : d = 0
        · simp [h0]
        · simp [h0]
      rw [htick]
      simp [specClosedMinutes, specOpenMinutes, List.filter_cons, hc, hd]
      omega

/-- Claim C3: for every well-formed user/day session list, the daily
total in minutes equals the sum of `duration_minutes` over closed
sessions plus the live elapsed whole minutes of the open sessions, and
it is displayed as the hours/minutes pair obtained by floor-division and
remainder by 60. -/
theorem total_minutes_eq_closed_plus_open (sessions : List AttendanceSession)
    (now : Int) (hwf : durationsMatchCheckouts sessions) :
    totalMinutes sessions now = specClosedMinutes sessions + specOpenMinutes sessions now ∧
    totalHours sessions now =
      (specClosedMinutes sessions + specOpenMinutes sessions now).fdiv 60 ∧
    remainingMinutes sessions now =
      (specClosedMinutes sessions + specOpenMinutes sessions now).tmod 60 := by
  have key := totalMinutes_split now sessions hwf
  exact ⟨key, by rw [totalHours, key], by rw [remainingMinutes, key]⟩

/-- The worked example of the spec: a 09:00-09:30 session of 30 minutes
and a 10:00-10:45 session of 45 minutes, both closed, observed at 11:00.
Times are milliseconds since local midnight. -/
def exampleDay : List AttendanceSession :=
  [⟨1, 32400000, some 34200000, some 30, some "a", some "b"⟩,
   ⟨2, 36000000, some 38700000, some 45, some "c", some "d"⟩]

/-- Witness for claim C3: on the spec's worked example the hypotheses
hold, the split applies, and the total is 75 minutes shown as 1h 15m. -/
theorem total_minutes_eq_closed_plus_open_witness :
    durationsMatchCheckouts exampleDay ∧
    (totalMinutes exampleDay 39600000 =
        specClosedMinutes exampleDay + specOpenMinutes exampleDay 39600000 ∧
      totalHours exampleDay 39600000 =
        (specClosedMinutes exampleDay + specOpenMinutes exampleDay 39600000).fdiv 60 ∧
      remainingMinutes exampleDay 39600000 =
        (specClosedMinutes exampleDay + specOpenMinutes exampleDay 39600000).tmod 60) ∧
    totalMinutes exampleDay 39600000 = 75 ∧
    totalHours exampleDay 39600000 = 1 ∧
    remainingMinutes exampleDay 39600000 = 15 :=
  ⟨by decide, total_minutes_eq_closed_plus_open exampleDay 39600000 (by decide),
   by decide, by decide, by decide⟩

/-- Claim C4: a check-out while no open session exists returns early:
no error is raised, no record is created or mutated, the session list is
exactly what it was. -/
theorem checkout_without_active_session_noop (sessions : List AttendanceSession)
    (newId : Nat) (now : Int) (photo : String) (writeOk : Bool)
    (h : activeSession sessions = none) :
    confirmPhoto sessions CaptureType.check_out newId now photo writeOk =
      { sessions := sessions, error := none } := by
  simp [confirmPhoto, h]

/-- A day consisting of a single already-closed session. -/
def closedOnlyDay : List AttendanceSession :=
  [⟨7, 0, some 60000, some 1, some "a", some "b"⟩]

/-- Witness for claim C4: on a day whose only session is closed, a
check-out attempt changes nothing and reports nothing. -/
theorem checkout_without_active_session_noop_witness :
    activeSession closedOnlyDay = none ∧
    confirmPhoto closedOnlyDay CaptureType.check_out 9 120000 "p" true =
      { sessions := closedOnlyDay, error := none } :=
  ⟨by decide, checkout_without_active_session_noop closedOnlyDay 9 120000 "p" true (by decide)⟩

/-- Claim C5: when the store write fails, no state change is committed —
the session list is unchanged, an error is surfaced whenever a write was
attempted, and retrying the operation behaves exactly as running it
against the original state. -/
theorem write_failure_preserves_state (sessions : List AttendanceSession)
    (ct : CaptureType) (newId : Nat) (now : Int) (photo : String) :
    (confirmPhoto sessions ct newId now photo false).sessions = sessions ∧
    ((ct = CaptureType.check_in ∨ (activeSession sessions).isSome) →
      (confirmPhoto sessions ct newId now photo false).error.isSome) ∧
    (∀ newId2 now2 photo2,
      confirmPhoto (confirmPhoto sessions ct newId now photo false).sessions
          ct newId2 now2 photo2 true =
        confirmPhoto sessions ct newId2 now2 photo2 true) := by
  cases ct with
  | check_in => simp [confirmPhoto]
  | check_out =>
    cases h : activeSession sessions with
    | none => simp [confirmPhoto, h]
    | some a => simp [confirmPhoto, h]

/-- A day with one open session, used to exercise failure paths. -/
def openOnlyDay : List AttendanceSession :=
  [⟨1, 100, none, none, some "p", none⟩]

/-- Witness for claim C5: a failed check-out write on a day with an open
session leaves the list untouched and reports the failure. -/
theorem write_failure_preserves_state_witness :
    (confirmPhoto openOnlyDay CaptureType.check_out 2 200 "q" false).sessions =
        openOnlyDay ∧
    (confirmPhoto openOnlyDay CaptureType.check_out 2 200 "q" false).error.isSome :=
  ⟨(write_failure_preserves_state openOnlyDay CaptureType.check_out 2 200 "q").1,
   (write_failure_preserves_state openOnlyDay CaptureType.check_out 2 200 "q").2.1
     (Or.inr (by decide))⟩

/-- A day whose only session checked in at millisecond 120000 and is
still open; used to exercise a check-out at an earlier clock reading. -/
def lateCheckInDay : List AttendanceSession :=
  [⟨1, 120000, none, none, some "p", none⟩]

/-- Counterexample to claim C1 as stated: checking out the open session
of `lateCheckInDay` at instant 0 (a clock standing two minutes before
the recorded check-in) stores `duration_minutes = -2`, a negative value,
so the stored duration is not clamped to be nonnegative. -/
theorem checkout_duration_negative_counterexample :
    ((confirmPhoto lateCheckInDay CaptureType.check_out 0 0 "q" true).sessions.head?.bind
        fun s => s.duration_minutes) = some (-2) ∧
    ¬ (0 : Int) ≤ -2 := by
  constructor
  · rfl
  · decide

/-- Claim C1 (amended): at check-out the session matching the active one
receives `check_out_time = now` and `duration_minutes =
floor((now - check_in_time) / 60000)` with no clamping; the stored value
is nonnegative whenever the check-out instant is not before the
check-in instant. -/
theorem checkout_duration_is_floor_unclamped (sessions : List AttendanceSession)
    (a : AttendanceSession) (newId : Nat) (now : Int) (photo : String)
    (h : activeSession sessions = some a) :
    ∃ s ∈ (confirmPhoto sessions CaptureType.check_out newId now photo true).sessions,
      s.id = a.id ∧ s.check_out_time = some now ∧
      s.duration_minutes = some ((now - a.check_in_time).fdiv (1000 * 60)) ∧
      (a.check_in_time ≤ now → 0 ≤ ((now - a.check_in_time).fdiv (1000 * 60))) := by
  have ha : a ∈ sessions := List.mem_of_find?_eq_some h
  refine ⟨checkOutUpdate a now photo a, ?_, ?_⟩
  · simp only [confirmPhoto, h]
    exact List.mem_map_of_mem (checkOutUpdate a now photo) ha
  · have hcu : checkOutUpdate a now photo a =
        { a with
          check_out_time := some now
          check_out_photo := some photo
          duration_minutes := some (durationMinutes a.check_in_time now) } := by
      simp [checkOutUpdate]
    rw [hcu]
    exact ⟨rfl, rfl, rfl, fun hle => Int.fdiv_nonneg (by omega) (by norm_num)⟩

/-- A day whose only session checked in at millisecond 0 and is open. -/
def earlyOpenDay : List AttendanceSession :=
  [⟨1, 0, none, none, some "p", none⟩]

/-- Witness for claim C1 (amended): checking out `earlyOpenDay` at
instant 90000 stores the floor duration 1, which is nonnegative. -/
theorem checkout_duration_is_floor_unclamped_witness :
    activeSession earlyOpenDay = some ⟨1, 0, none, none, some "p", none⟩ ∧
    ∃ s ∈ (confirmPhoto earlyOpenDay CaptureType.check_out 0 90000 "q" true).sessions,
      s.id = 1 ∧ s.check_out_time = some 90000 ∧
      s.duration_minutes = some (((90000 : Int) - 0).fdiv (1000 * 60)) ∧
      ((0 : Int) ≤ 90000 → 0 ≤ (((90000 : Int) - 0).fdiv (1000 * 60))) :=
  ⟨by decide,
   checkout_duration_is_floor_unclamped earlyOpenDay ⟨1, 0, none, none, some "p", none⟩
     0 90000 "q" (by decide)⟩

/-- Claim C2, evaluated at the failing input: with one open session
already on the day, a confirmed check-in reports no error, appends a
second record, and leaves the day with two simultaneously open
sessions. The claimed `AlreadyCheckedIn` rejection does not exist in
`confirmPhoto`, which inserts unconditionally. -/
theorem checkin_with_open_session_inserts_second_open :
    openCount openOnlyDay = 1 ∧
    (confirmPhoto openOnlyDay CaptureType.check_in 2 200 "q" true).error = none ∧
    (confirmPhoto openOnlyDay CaptureType.check_in 2 200 "q" true).sessions.length = 2 ∧
    openCount (confirmPhoto openOnlyDay CaptureType.check_in 2 200 "q" true).sessions = 2 := by
  decide

/-- Claim C6: while the clock is not behind the check-in instant, the
elapsed display is the `HH:MM:SS` decomposition of the elapsed
milliseconds — hours `diff / 3600000`, minutes `diff % 3600000 / 60000`,
seconds `diff % 60000 / 1000`, each rendered zero-padded to two digits —
and it shows `00:00:00` at the check-in instant and `00:01:00` sixty
seconds later. -/
theorem elapsed_display_hms_decomposition (T now : Int) (h : T ≤ now) :
    (elapsedDisplay T now =
      padStart2 (toString ((now - T).toNat / 3600000)) ++ ":" ++
        padStart2 (toString ((now - T).toNat % 3600000 / 60000)) ++ ":" ++
        padStart2 (toString ((now - T).toNat % 60000 / 1000))) ∧
    (now = T → elapsedDisplay T now = "00:00:00") ∧
    (now = T + 60000 → elapsedDisplay T now = "00:01:00") := by
  obtain ⟨d, hd⟩ : ∃ d : Nat, now - T = (d : Int) := ⟨(now - T).toNat, by omega⟩
  have htn : (now - T).toNat = d := by omega
  refine ⟨?_, ?_, ?_⟩
  · simp only [elapsedDisplay, hd, htn]
    rw [Int.fdiv_eq_tdiv (by exact Int.ofNat_nonneg d) (by norm_num),
      show ((d : Int)).tmod (1000 * 60 * 60) = ((d % 3600000 : Nat) : Int) from rfl,
      Int.fdiv_eq_tdiv (by exact Int.ofNat_nonneg (d % 3600000)) (by norm_num),
      show ((d : Int)).tmod (1000 * 60) = ((d % 60000 : Nat) : Int) from rfl,
      Int.fdiv_eq_tdiv (by exact Int.ofNat_nonneg (d % 60000)) (by norm_num)]
    rfl
  · intro hnow
    simp only [elapsedDisplay, hnow, sub_self]
    rfl
  · intro hnow
    have h60 : now - T = (60000 : Int) := by omega
    simp only [elapsedDisplay, h60]
    rfl

/-- Witness for claim C6: for a check-in at instant 0 observed at
instant 60000 the hypothesis holds and the display reads `00:01:00`;
observed at instant 0 it reads `00:00:00`. -/
theorem elapsed_display_hms_decomposition_witness :
    ((0 : Int) ≤ 60000 ∧ elapsedDisplay 0 60000 = "00:01:00") ∧
    ((0 : Int) ≤ 0 ∧ elapsedDisplay 0 0 = "00:00:00") :=
  ⟨⟨by decide, (elapsed_display_hms_decomposition 0 60000 (by decide)).2.2 (by decide)⟩,
   ⟨by decide, (elapsed_display_hms_decomposition 0 0 (by decide)).2.1 rfl⟩⟩

/-- A session closed fifty seconds after check-in: its stored duration
is 0 whole minutes. -/
def zeroDurationSession : AttendanceSession :=
  ⟨3, 0, some 50000, some 0, some "a", some "b"⟩

/-- Counterexample to claim C7 as stated: a closed session whose stored
`duration_minutes` is 0 is rendered as the `In Progress` badge, not as
`0h 0m` — the displayed value does not freeze to the stored duration
when that duration is 0, because the render tests JavaScript truthiness
of `duration_minutes`. -/
theorem zero_duration_shows_in_progress :
    zeroDurationSession.check_out_time.isSome ∧
    zeroDurationSession.duration_minutes = some 0 ∧
    sessionDurationDisplay zeroDurationSession = "In Progress" ∧
    sessionDurationDisplay zeroDurationSession ≠ "0h 0m" := by
  decide

/-- Claim C7 (amended): for every session whose stored
`duration_minutes` is present and nonzero, the displayed value is the
frozen `H h M m` rendering — floor-quotient by 60 hours and remainder
minutes, no seconds; a stored duration of 0 (or a missing one) renders
as the `In Progress` badge instead. -/
theorem nonzero_duration_display_hm (s : AttendanceSession) (d : Int)
    (hd : s.duration_minutes = some d) (h0 : d ≠ 0) :
    sessionDurationDisplay s =
      toString (d.fdiv 60) ++ "h " ++ toString (d.tmod 60) ++ "m" := by
  simp [sessionDurationDisplay, jsTruthyNum, hd, h0]

/-- A session closed after 75 minutes of work. -/
def seventyFiveSession : AttendanceSession :=
  ⟨4, 0, some 4500000, some 75, some "a", some "b"⟩

/-- Witness for claim C7 (amended): the 75-minute closed session renders
as `1h 15m`. -/
theorem nonzero_duration_display_hm_witness :
    sessionDurationDisplay seventyFiveSession =
        toString ((75 : Int).fdiv 60) ++ "h " ++ toString ((75 : Int).tmod 60) ++ "m" ∧
    sessionDurationDisplay seventyFiveSession = "1h 15m" :=
  ⟨nonzero_duration_display_hm seventyFiveSession 75 rfl (by decide), by decide⟩

/-- A day with one open session that checked in at millisecond 5. -/
def instantDay : List AttendanceSession :=
  [⟨4, 5, none, none, none, none⟩]

/-- Counterexample to claim C8 as stated: checking out `instantDay` at
the very instant of its check-in commits a session whose
`check_out_time` equals its `check_in_time`, so a present check-out time
is not strictly after the check-in time; nothing in the component or the
schema forbids it. -/
theorem checkout_equal_instant_counterexample :
    (confirmPhoto instantDay CaptureType.check_out 0 5 "p" true).sessions =
        [⟨4, 5, some 5, some 0, none, some "p"⟩] ∧
    ¬ (5 : Int) < 5 := by
  constructor
  · rfl
  · decide

/-- The sessions invariant claimed by the spec: a recorded check-out
instant lies strictly after the session's check-in instant. -/
def strictAfter (sessions : List AttendanceSession) : Prop :=
  ∀ s ∈ sessions, ∀ t, s.check_out_time = some t → s.check_in_time < t

instance (sessions : List AttendanceSession) : Decidable (strictAfter sessions) :=
  inferInstanceAs
    (Decidable (∀ s ∈ sessions, ∀ t, s.check_out_time = some t → s.check_in_time < t))

/-- Claim C8 (amended): the strictly-after invariant is preserved by
check-in and check-out provided the operation's instant lies strictly
after every recorded check-in of the day; the code itself never enforces
this, so a check-out at (or before) the check-in instant violates it. -/
theorem strict_after_preserved_under_advancing_clock
    (sessions : List AttendanceSession) (ct : CaptureType) (newId : Nat)
    (now : Int) (photo : String) (writeOk : Bool)
    (hinv : strictAfter sessions)
    (hclock : ∀ s ∈ sessions, s.check_in_time < now) :
    strictAfter (confirmPhoto sessions ct newId now photo writeOk).sessions := by
  cases ct with
  | check_in =>
    cases writeOk with
    | false => exact hinv
    | true =>
      intro s hs t ht
      rcases List.mem_append.mp hs with hmem | hmem
      · exact hinv s hmem t ht
      · rcases List.mem_singleton.mp hmem with rfl
        simp [newSession] at ht
  | check_out =>
    cases h : activeSession sessions with
    | none => simpa [confirmPhoto, h] using hinv
    | some a =>
      cases writeOk with
      | false => simpa [confirmPhoto, h] using hinv
      | true =>
        simp only [confirmPhoto, h]
        intro s hs t ht
        rcases List.mem_map.mp hs with ⟨x, hx, rfl⟩
        by_cases hid : (x.id == a.id) = true
        · have hrw : checkOutUpdate a now photo x =
              { x with
                check_out_time := some now
                check_out_photo := some photo
                duration_minutes := some (durationMinutes a.check_in_time now) } := by
            simp [checkOutUpdate, hid]
          rw [hrw] at ht ⊢
          have ht' : now = t := by simpa using ht
          show x.check_in_time < t
          exact ht' ▸ hclock x hx
        · have hrw : checkOutUpdate a now photo x = x := by
            simp [checkOutUpdate, hid]
          rw [hrw] at ht ⊢
          exact hinv x hx t ht

/-- Witness for claim C8 (amended): on the open day checked in at
instant 100, a check-out at instant 200 keeps every recorded check-out
strictly after its check-in. -/
theorem strict_after_preserved_under_advancing_clock_witness :
    strictAfter openOnlyDay ∧ (∀ s ∈ openOnlyDay, s.check_in_time < (200 : Int)) ∧
    strictAfter (confirmPhoto openOnlyDay CaptureType.check_out 2 200 "q" true).sessions :=
  ⟨by decide, by decide,
   strict_after_preserved_under_advancing_clock openOnlyDay CaptureType.check_out 2 200 "q"
     true (by decide) (by decide)⟩

/-- Claim C9: the day's query presents the sessions sorted ascending by
`check_in_time`, and the rendered `Session i` headings are exactly the
1-based positions of the list — a function of the position alone, not of
any field of the records. -/
theorem query_sorted_labels_positional (raw sessions : List AttendanceSession) :
    (sessionsQuery raw).Sorted byCheckIn ∧
    renderedLabels sessions = (List.range sessions.length).map sessionLabel := by
  constructor
  · exact List.sorted_insertionSort byCheckIn raw
  · unfold renderedLabels
    rw [← List.enum_map_fst sessions, List.map_map]
    rfl

/-- Splitting view of a successful `find?`: the list decomposes around
the found element, everything before it failing the predicate. -/
theorem find_split {α : Type} (p : α → Bool) :
    ∀ (l : List α) (a : α), l.find? p = some a →
      ∃ l1 l2, l = l1 ++ a :: l2 ∧ (∀ x ∈ l1, p x = false) ∧ p a = true := by
  intro l
  induction l with
  | nil => intro a h; simp [List.find?] at h
  | cons x xs ih =>
    intro a h
    by_cases hx : p x = true
    · rw [List.find?_cons_of_pos _ hx] at h
      obtain rfl : x = a := Option.some.inj h
      exact ⟨[], xs, rfl, by simp, hx⟩
    · rw [List.find?_cons_of_neg _ hx] at h
      obtain ⟨l1, l2, rfl, hl1, hpa⟩ := ih a h
      refine ⟨x :: l1, l2, rfl, ?_, hpa⟩
      intro y hy
      rcases List.mem_cons.mp hy with rfl | hy'
      · exact Bool.not_eq_true _ ▸ eq_false_of_ne_true hx
      · exact hl1 y hy'

/-- Claim C10: on a day holding several open sessions, a confirmed
check-out closes exactly one record — the earliest open one in the
ascending `check_in_time` order — by setting its check-out time, photo
and duration, and leaves every other record, the later open ones
included, byte-for-byte unchanged. -/
theorem checkout_updates_earliest_open_only (sessions : List AttendanceSession)
    (a : AttendanceSession) (newId : Nat) (now : Int) (photo : String)
    (hfind : activeSession sessions = some a)
    (hnodup : (sessions.map fun s => s.id).Nodup)
    (hsorted : sessions.Sorted byCheckIn) :
    a ∈ sessions ∧ a.check_out_time = none ∧
    (∀ s ∈ sessions, s.check_out_time = none → a.check_in_time ≤ s.check_in_time) ∧
    (∃ l1 l2, sessions = l1 ++ a :: l2 ∧
      (confirmPhoto sessions CaptureType.check_out newId now photo true).sessions =
        l1 ++ closeSession a now photo :: l2) := by
  have hfind' : List.find? (fun s => s.check_out_time.isNone) sessions = some a := hfind
  obtain ⟨l1, l2, hsplit, hl1, hpa⟩ :=
    find_split (fun s => s.check_out_time.isNone) sessions a hfind'
  have hopen : a.check_out_time = none := Option.isNone_iff_eq_none.mp hpa
  subst hsplit
  rw [List.map_append, List.map_cons, List.nodup_append] at hnodup
  obtain ⟨hn1, hn2, hdisj⟩ := hnodup
  have ha2 : a.id ∉ l2.map (fun s => s.id) := (List.nodup_cons.mp hn2).1
  have ha1 : a.id ∉ l1.map (fun s => s.id) :=
    fun hmem1 => hdisj hmem1 (List.mem_cons_self _ _)
  have hfix1 : ∀ x ∈ l1, checkOutUpdate a now photo x = x := by
    intro x hx
    have hxid : ¬ (x.id == a.id) = true := by
      intro hbe
      exact ha1 ((beq_iff_eq.mp hbe : x.id = a.id) ▸
        List.mem_map_of_mem (fun s => s.id) hx)
    simp [checkOutUpdate, hxid]
  have hfix2 : ∀ x ∈ l2, checkOutUpdate a now photo x = x := by
    intro x hx
    have hxid : ¬ (x.id == a.id) = true := by
      intro hbe
      exact ha2 ((beq_iff_eq.mp hbe : x.id = a.id) ▸
        List.mem_map_of_mem (fun s => s.id) hx)
    simp [checkOutUpdate, hxid]
  refine ⟨List.mem_append_right _ (List.mem_cons_self a l2), hopen, ?_, l1, l2, rfl, ?_⟩
  · intro s hs hsopen
    rcases List.mem_append.mp hs with hs1 | hs2
    · exact absurd (hl1 s hs1) (by simp [hsopen])
    · rcases List.mem_cons.mp hs2 with rfl | hs2'
      · exact le_refl _
      · have hp := (List.pairwise_append.mp hsorted).2.1
        exact (List.pairwise_cons.mp hp).1 s hs2'
  · have hres : (confirmPhoto (l1 ++ a :: l2) CaptureType.check_out newId now photo
        true).sessions = List.map (checkOutUpdate a now photo) (l1 ++ a :: l2) := by
      simp [confirmPhoto, hfind]
    rw [hres, List.map_append, List.map_cons]
    congr 1
    · exact List.map_congr_left hfix1 |>.trans (List.map_id l1)
    · congr 1
      · simp [checkOutUpdate, closeSession, durationMinutes]
      · exact List.map_congr_left hfix2 |>.trans (List.map_id l2)

/-- A day with two simultaneously open sessions, checked in at instants
10 and 20, with distinct ids and sorted ascending. -/
def twoOpenDay : List AttendanceSession :=
  [⟨1, 10, none, none, none, none⟩, ⟨2, 20, none, none, none, none⟩]

/-- The earlier of the two open sessions of `twoOpenDay`. -/
def firstOpenSession : AttendanceSession :=
  ⟨1, 10, none, none, none, none⟩

/-- Witness for claim C10: on `twoOpenDay` a check-out at instant 30
closes only the session checked in at 10, leaving the one checked in at
20 untouched. -/
theorem checkout_updates_earliest_open_only_witness :
    (activeSession twoOpenDay = some firstOpenSession ∧
      (twoOpenDay.map fun s => s.id).Nodup ∧ twoOpenDay.Sorted byCheckIn) ∧
    (firstOpenSession ∈ twoOpenDay ∧ firstOpenSession.check_out_time = none ∧
      (∀ s ∈ twoOpenDay, s.check_out_time = none →
        firstOpenSession.check_in_time ≤ s.check_in_time) ∧
      (∃ l1 l2, twoOpenDay = l1 ++ firstOpenSession :: l2 ∧
        (confirmPhoto twoOpenDay CaptureType.check_out 3 30 "p" true).sessions =
          l1 ++ closeSession firstOpenSession 30 "p" :: l2)) :=
  ⟨⟨by decide, by decide, by decide⟩,
   checkout_updates_earliest_open_only twoOpenDay firstOpenSession 3 30 "p"
     (by decide) (by decide) (by decide)⟩

end Grofast
